import Mathlib

/-!
Verification of the monitoring-dashboard collectors against their spec.

The Python sources are shallowly embedded over `ℚ` (all numeric values in
the scripts are Python floats used for exact-looking decimal arithmetic;
rationals model the intended real-number semantics).  Dates are abstracted
to natural-number ordinals (day comparisons in SQL `period_start >= w`
become `≤` on `ℕ`).  Fallible network fetches are modelled by `Option` /
empty-result values exactly where the Python code catches exceptions and
substitutes a default.
-/

namespace MonDash

/-- Tests whether `sep` is a prefix of the character list. -/
def isPrefixL : List Char → List Char → Bool
  | [], _ => true
  | _ :: _, [] => false
  | p :: ps, c :: cs => p == c && isPrefixL ps cs

/-- Fuel-driven worker for `pySplit`; the fuel (an upper bound on the
input length) only makes the recursion structural. -/
def splitFuel (sep : List Char) : ℕ → List Char → List (List Char)
  | _, [] => [[]]
  | 0, cs => [cs]
  | n + 1, c :: cs =>
    if isPrefixL sep (c :: cs) then
      [] :: splitFuel sep n (cs.drop (sep.length - 1))
    else
      match splitFuel sep n cs with
      | [] => [[c]]
      | piece :: rest => (c :: piece) :: rest

/-- Python `s.split(sep)` for a nonempty separator (the only form the
scripts use): greedy left-to-right split. -/
def pySplit (s sep : String) : List String :=
  (splitFuel sep.toList (s.toList.length + 1) s.toList).map fun cs => String.mk cs

/-- Substring test: Python's `pat in s` for nonempty `pat`; splitting
yields more than one piece iff the pattern occurs. -/
def strContains (s pat : String) : Bool :=
  Nat.blt 1 (pySplit s pat).length

/-- Banker's rounding of a rational to an integer: Python's builtin
`round` rounds half to even. -/
def rheInt (q : ℚ) : ℤ :=
  let f : ℤ := q.num.fdiv (q.den : ℤ)
  let r : ℚ := q - (f : ℚ)
  if r < 1 / 2 then f
  else if 1 / 2 < r then f + 1
  else if f % 2 = 0 then f else f + 1

/-- Python `round(x, n)`: round half to even at `n` decimal digits. -/
def pyRound (n : ℕ) (x : ℚ) : ℚ :=
  (rheInt (x * (10 : ℚ) ^ n) : ℚ) / (10 : ℚ) ^ n

end MonDash

namespace AwsTelemetry

/-- Table `EC2_INSTANCE_SPECS` from `aws_telemetry.py`: static
instance-type → (vCPUs, RAM GB) table. -/
def EC2_INSTANCE_SPECS : List (String × ℚ × ℚ) := [
  ("t3.nano", 2, 0.5), ("t3.micro", 2, 1), ("t3.small", 2, 2), ("t3.medium", 2, 4),
  ("t3.large", 2, 8), ("t3.xlarge", 4, 16), ("t3.2xlarge", 8, 32),
  ("t3a.nano", 2, 0.5), ("t3a.micro", 2, 1), ("t3a.small", 2, 2), ("t3a.medium", 2, 4),
  ("t3a.large", 2, 8), ("t3a.xlarge", 4, 16), ("t3a.2xlarge", 8, 32),
  ("t2.nano", 1, 0.5), ("t2.micro", 1, 1), ("t2.small", 1, 2), ("t2.medium", 2, 4),
  ("t2.large", 2, 8), ("t2.xlarge", 4, 16), ("t2.2xlarge", 8, 32),
  ("m5.large", 2, 8), ("m5.xlarge", 4, 16), ("m5.2xlarge", 8, 32), ("m5.4xlarge", 16, 64),
  ("m5.8xlarge", 32, 128), ("m5.12xlarge", 48, 192), ("m5.16xlarge", 64, 256),
  ("m5a.large", 2, 8), ("m5a.xlarge", 4, 16), ("m5a.2xlarge", 8, 32), ("m5a.4xlarge", 16, 64),
  ("m6i.large", 2, 8), ("m6i.xlarge", 4, 16), ("m6i.2xlarge", 8, 32), ("m6i.4xlarge", 16, 64),
  ("m6a.large", 2, 8), ("m6a.xlarge", 4, 16), ("m6a.2xlarge", 8, 32),
  ("c5.large", 2, 4), ("c5.xlarge", 4, 8), ("c5.2xlarge", 8, 16), ("c5.4xlarge", 16, 32),
  ("c5.9xlarge", 36, 72), ("c5.12xlarge", 48, 96), ("c5.18xlarge", 72, 144),
  ("c5a.large", 2, 4), ("c5a.xlarge", 4, 8), ("c5a.2xlarge", 8, 16),
  ("r5.large", 2, 16), ("r5.xlarge", 4, 32), ("r5.2xlarge", 8, 64), ("r5.4xlarge", 16, 128),
  ("r5.8xlarge", 32, 256), ("r5.12xlarge", 48, 384), ("r5.16xlarge", 64, 512),
  ("r5a.large", 2, 16), ("r5a.xlarge", 4, 32), ("r5a.2xlarge", 8, 64)]

/-- vCPU count chosen by the size-name heuristic in `get_instance_specs`
(the `if 'nano' in size ... else: vcpu = 2` chain). -/
def heuristicVcpu (size : String) : ℚ :=
  if MonDash.strContains size "nano" then 1
  else if MonDash.strContains size "micro" then 1
  else if MonDash.strContains size "small" then 2
  else if MonDash.strContains size "medium" then 2
  else if MonDash.strContains size "large" && !MonDash.strContains size "xlarge" then 2
  else if MonDash.strContains size "24xlarge" then 96
  else if MonDash.strContains size "18xlarge" then 72
  else if MonDash.strContains size "16xlarge" then 64
  else if MonDash.strContains size "12xlarge" then 48
  else if MonDash.strContains size "9xlarge" then 36
  else if MonDash.strContains size "8xlarge" then 32
  else if MonDash.strContains size "4xlarge" then 16
  else if MonDash.strContains size "2xlarge" then 8
  else if MonDash.strContains size "xlarge" then 4
  else 2

/-- The fallback-estimation `try:` block of `get_instance_specs`: applies
only when splitting on `'.'` yields exactly two parts; `none` means the
block fell through to the final default. -/
def ec2Heuristic (instance_type : String) : Option (ℚ × ℚ) :=
  let parts := MonDash.pySplit instance_type "."
  if parts.length = 2 then
    let size := parts[1]!
    let vcpu := heuristicVcpu size
    let fam := parts[0]!
    let ram : ℚ :=
      if MonDash.isPrefixL "r".toList fam.toList then vcpu * 8
      else if MonDash.isPrefixL "c".toList fam.toList then vcpu * 2
      else vcpu * 4
    some (vcpu, ram)
  else none

/-- Function `get_instance_specs` from `aws_telemetry.py`: table lookup, then size
heuristic, then the fixed default `(2, 4)`. -/
def get_instance_specs (instance_type : String) : ℚ × ℚ :=
  match (EC2_INSTANCE_SPECS.find? (fun p => p.1 == instance_type)).map (·.2) with
  | some spec => spec
  | none => (ec2Heuristic instance_type).getD (2, 4)

end AwsTelemetry

namespace AzureTelemetry

/-- Table `VM_SIZE_SPECS` from `Azure_telemetry.py`. -/
def VM_SIZE_SPECS : List (String × ℚ × ℚ) := [
  ("Standard_B1s", 1, 1), ("Standard_B1ms", 1, 2), ("Standard_B2s", 2, 4),
  ("Standard_B2ms", 2, 8), ("Standard_B4ms", 4, 16), ("Standard_B8ms", 8, 32),
  ("Standard_B12ms", 12, 48), ("Standard_B16ms", 16, 64), ("Standard_B20ms", 20, 80),
  ("Standard_D2s_v3", 2, 8), ("Standard_D4s_v3", 4, 16), ("Standard_D8s_v3", 8, 32),
  ("Standard_D16s_v3", 16, 64), ("Standard_D32s_v3", 32, 128), ("Standard_D48s_v3", 48, 192),
  ("Standard_D64s_v3", 64, 256),
  ("Standard_D2s_v4", 2, 8), ("Standard_D4s_v4", 4, 16), ("Standard_D8s_v4", 8, 32),
  ("Standard_D16s_v4", 16, 64), ("Standard_D32s_v4", 32, 128), ("Standard_D48s_v4", 48, 192),
  ("Standard_D2s_v5", 2, 8), ("Standard_D4s_v5", 4, 16), ("Standard_D8s_v5", 8, 32),
  ("Standard_D16s_v5", 16, 64), ("Standard_D32s_v5", 32, 128),
  ("Standard_E2s_v3", 2, 16), ("Standard_E4s_v3", 4, 32), ("Standard_E8s_v3", 8, 64),
  ("Standard_E16s_v3", 16, 128), ("Standard_E20s_v3", 20, 160), ("Standard_E32s_v3", 32, 256),
  ("Standard_E48s_v3", 48, 384), ("Standard_E64s_v3", 64, 432),
  ("Standard_E2s_v4", 2, 16), ("Standard_E4s_v4", 4, 32), ("Standard_E8s_v4", 8, 64),
  ("Standard_E16s_v4", 16, 128), ("Standard_E32s_v4", 32, 256),
  ("Standard_F2s_v2", 2, 4), ("Standard_F4s_v2", 4, 8), ("Standard_F8s_v2", 8, 16),
  ("Standard_F16s_v2", 16, 32), ("Standard_F32s_v2", 32, 64), ("Standard_F48s_v2", 48, 96),
  ("Standard_F64s_v2", 64, 128), ("Standard_F72s_v2", 72, 144),
  ("Standard_L8s_v2", 8, 64), ("Standard_L16s_v2", 16, 128), ("Standard_L32s_v2", 32, 256),
  ("Standard_M8ms", 8, 218), ("Standard_M16ms", 16, 437), ("Standard_M32ms", 32, 875),
  ("Standard_M64ms", 64, 1750), ("Standard_M128ms", 128, 3800)]

/-- Python `int(''.join(filter(str.isdigit, s)))`: `none` when no digit
occurs (the `ValueError` swallowed by the bare `except`). -/
def digitsToNat (s : String) : Option ℕ :=
  let ds := s.toList.filter Char.isDigit
  if ds.isEmpty then none
  else some (ds.foldl (fun acc c => acc * 10 + (c.toNat - '0'.toNat)) 0)

/-- The fallback-estimation `try:` block of `get_vm_specs`; `none` when it
falls through (fewer than two `'_'` parts) or raises (no digits). -/
def azureHeuristic (vm_size : String) : Option (ℚ × ℚ) :=
  let parts := MonDash.pySplit vm_size "_"
  if parts.length ≥ 2 then
    let size_str := parts[1]!
    match digitsToNat size_str with
    | none => none
    | some num =>
      let ram : ℚ :=
        if size_str.toList.contains 'E' then (num : ℚ) * 8
        else if size_str.toList.contains 'F' then (num : ℚ) * 2
        else if size_str.toList.contains 'B' then (num : ℚ) * 4
        else (num : ℚ) * 4
      some ((num : ℚ), ram)
  else none

/-- Function `get_vm_specs` from `Azure_telemetry.py`: table lookup, then parsing
heuristic, then the fixed default `(2, 8)`. -/
def get_vm_specs (vm_size : String) : ℚ × ℚ :=
  match (VM_SIZE_SPECS.find? (fun p => p.1 == vm_size)).map (·.2) with
  | some spec => spec
  | none => (azureHeuristic vm_size).getD (2, 8)

/-- Function `calculate_rate` from `Azure_telemetry.py` (lines 185–197). -/
def calculate_rate (current previous time_diff_seconds : ℚ) : ℚ :=
  if time_diff_seconds ≤ 0 then 0
  else
    let diff := current - previous
    if diff < 0 then 0
    else diff / time_diff_seconds

end AzureTelemetry

namespace MonDash

/-- A row of the `live_telemetry` table (timestamps abstracted to `ℚ`). -/
structure MetricSample where
  timestamp : ℚ
  provider : String
  project_name : String
  resource_name : String
  metric_type : String
  used_value : ℚ
  total_value : ℚ
  percent_usage : ℚ
  unit : String
deriving DecidableEq, Repr

end MonDash

namespace AwsTelemetry

open MonDash

/-- Result contract of `get_cloudwatch_metric`: the latest datapoint's
statistic, or `0.0` when the request raised or returned no datapoints
(both modelled by `none`). -/
def get_cloudwatch_metric (fetched : Option ℚ) : ℚ :=
  match fetched with
  | some v => v
  | none => 0

/-- One running EC2 instance as seen by `scan_ec2_instances`, together
with the outcome of each CloudWatch query made for it (`none` = the
query failed or had no data). -/
structure Ec2Instance where
  instance_name : String
  instance_type : String
  state : String
  cpuFetch : Option ℚ
  memFetch : Option ℚ
  netInFetch : Option ℚ
  netOutFetch : Option ℚ
deriving Repr

/-- Rows appended by the body of the per-instance loop in
`scan_ec2_instances` (`aws_telemetry.py` lines 184–214). -/
def scan_ec2_instance (region : String) (now : ℚ) (inst : Ec2Instance) :
    List MetricSample :=
  let spec := get_instance_specs inst.instance_type
  let vcpu_total := spec.1
  let ram_total_gb := spec.2
  let cpu_percent := get_cloudwatch_metric inst.cpuFetch
  let cpu_used_vcpu := (cpu_percent / 100) * vcpu_total
  let cpuRow : MetricSample :=
    ⟨now, "AWS", region, inst.instance_name, "cpu_usage",
      cpu_used_vcpu, vcpu_total, cpu_percent, "vCPU"⟩
  let mem_percent := get_cloudwatch_metric inst.memFetch
  let memRows : List MetricSample :=
    if mem_percent > 0 then
      [⟨now, "AWS", region, inst.instance_name, "ram_usage",
        (mem_percent / 100) * ram_total_gb, ram_total_gb, mem_percent, "GiB"⟩]
    else []
  let net_in_bytes := get_cloudwatch_metric inst.netInFetch
  let net_out_bytes := get_cloudwatch_metric inst.netOutFetch
  let net_in_mbps := if net_in_bytes > 0 then (net_in_bytes / 300 * 8) / (1024 * 1024) else 0
  let net_out_mbps := if net_out_bytes > 0 then (net_out_bytes / 300 * 8) / (1024 * 1024) else 0
  let status : ℚ := if inst.state = "running" then 1 else 0
  [cpuRow] ++ memRows ++
    [⟨now, "AWS", region, inst.instance_name, "net_inbound", net_in_mbps, 0, 0, "Mbps"⟩,
     ⟨now, "AWS", region, inst.instance_name, "net_outbound", net_out_mbps, 0, 0, "Mbps"⟩,
     ⟨now, "AWS", region, inst.instance_name, "instance_status", status, 1, status * 100, "boolean"⟩]

/-- The whole per-region EC2 loop: rows of all instances, in order. -/
def scan_ec2_instances (region : String) (now : ℚ) (insts : List Ec2Instance) :
    List MetricSample :=
  insts.flatMap (scan_ec2_instance region now)

end AwsTelemetry

namespace DOTelemetry

open MonDash

/-- One metric series as returned inside `fetch_series_data`'s result:
label pairs (`mode`, `fstype`, `mountpoint`, `device`, ...) and
`(timestamp, value)` points. -/
structure Series where
  metric : List (String × String)
  values : List (ℚ × ℚ)
deriving Repr

/-- Python `res.get("metric", {}).get(key)`. -/
def seriesLabel (s : Series) (key : String) : Option String :=
  (s.metric.find? (fun p => p.1 == key)).map (·.2)

/-- Function `calculate_rate` from `digitalocean_telemetry.py` (lines 118–134):
rate of change between the last two data points (`values[-2]`,
`values[-1]`), with guards for short series, non-positive time deltas
and counter resets. -/
def calculate_rate (values : List (ℚ × ℚ)) : ℚ :=
  match values.reverse with
  | (t_curr, v_curr) :: (t_prev, v_prev) :: _ =>
    let time_diff := t_curr - t_prev
    let val_diff := v_curr - v_prev
    if time_diff ≤ 0 then 0
    else if val_diff < 0 then 0
    else val_diff / time_diff
  | _ => 0

/-- Helper `get_latest_val` nested in `process_droplet`: last value of the first
series, else `0.0`. -/
def get_latest_val (data : List Series) : ℚ :=
  match data with
  | s :: _ =>
    match s.values.getLast? with
    | some tv => tv.2
    | none => 0
  | [] => 0

/-- One metric tuple `(metric_type, used, total, percent, unit)` built by
`process_droplet` before `main` rounds and inserts it. -/
structure DOMetricTuple where
  mtype : String
  used : ℚ
  total : ℚ
  pct : ℚ
  unit : String
deriving DecidableEq, Repr

/-- Droplet spec dictionary built by `get_inventory` (inventory already
filters out droplets with non-positive RAM). -/
structure DropletSpecs where
  name : String
  project : String
  cpu_total : ℚ
  ram_total : ℚ
  disk_total : ℚ
deriving Repr

/-- Results of the seven metric fetches done by `process_droplet`; a
failed fetch is the empty list, exactly what `fetch_series_data`
returns on any error. -/
structure DropletFetches where
  cpu : List Series
  memory_free : List Series
  memory_cached : List Series
  memory_buffers : List Series
  filesystem_free : List Series
  bandwidth_inbound : List Series
  bandwidth_outbound : List Series
deriving Repr

/-- The disk loop of `process_droplet` (lines 196–202): scans the
filesystem series, skipping pseudo-filesystems, remembering the last
root-candidate free value and breaking at an exact `/` mountpoint.
Returns `(found_disk, root_free_gb·GIB⁻¹ already applied by caller)`. -/
def diskScan : List Series → Bool → ℚ → Bool × ℚ
  | [], found, acc => (found, acc)
  | r :: rest, found, acc =>
    let fstype := seriesLabel r "fstype"
    if fstype == some "tmpfs" || fstype == some "devtmpfs" || fstype == some "overlay" then
      diskScan rest found acc
    else
      let mount := seriesLabel r "mountpoint"
      let device := (seriesLabel r "device").getD ""
      if mount == some "/" ||
          (MonDash.strContains device "vda" || MonDash.strContains device "sda" ||
           MonDash.strContains device "nvme") then
        let v := get_latest_val [r] / (1024 ^ 3 : ℚ)
        if mount == some "/" then (true, v)
        else diskScan rest true v
      else diskScan rest found acc

/-- The bandwidth arm of `process_droplet`'s loop (lines 209–213): a row
only when the series fetch returned data. -/
def netRow (dr : String) (net : List Series) : List DOMetricTuple :=
  match net with
  | s :: _ =>
    if !s.values.isEmpty then
      [⟨"net_" ++ dr, (calculate_rate s.values * 8) / (1024 * 1024), 0, 0, "Mbps"⟩]
    else []
  | [] => []

/-- The metric tuples built by `process_droplet`
(`digitalocean_telemetry.py` lines 136–215). -/
def process_droplet (specs : DropletSpecs) (f : DropletFetches) :
    List DOMetricTuple :=
  let GIB : ℚ := 1024 ^ 3
  let idleSeries := f.cpu.filter (fun r => seriesLabel r "mode" == some "idle")
  let total_idle_rate := idleSeries.foldl (fun acc r => acc + calculate_rate r.values) 0
  let found_cpu := !idleSeries.isEmpty
  let cpuRows : List DOMetricTuple :=
    if found_cpu then
      if specs.cpu_total > 0 then
        let idle_norm := max 0 (min 1 (total_idle_rate / specs.cpu_total))
        [⟨"cpu_usage", (1 - idle_norm) * specs.cpu_total, specs.cpu_total,
          (1 - idle_norm) * 100, "vCPU"⟩]
      else []
    else []
  let mem_free := get_latest_val f.memory_free
  let mem_cached := get_latest_val f.memory_cached
  let mem_buffers := get_latest_val f.memory_buffers
  let ramRows : List DOMetricTuple :=
    if specs.ram_total > 0 then
      let free_gb := (mem_free + mem_cached + mem_buffers) / GIB
      let used_gb := max 0 (specs.ram_total - free_gb)
      [⟨"ram_usage", used_gb, specs.ram_total, (used_gb / specs.ram_total) * 100, "GiB"⟩]
    else []
  let disk := diskScan f.filesystem_free false 0
  let diskRows : List DOMetricTuple :=
    if disk.1 then
      if specs.disk_total > 0 then
        let used_disk := max 0 (specs.disk_total - disk.2)
        [⟨"disk_usage", used_disk, specs.disk_total,
          (used_disk / specs.disk_total) * 100, "GiB"⟩]
      else []
    else []
  cpuRows ++ ramRows ++ diskRows ++
    netRow "inbound" f.bandwidth_inbound ++ netRow "outbound" f.bandwidth_outbound

end DOTelemetry

namespace MonDash

/-- A row of the `billing_metrics` table. Dates (`period_start`,
`period_end`) are abstracted to day ordinals. -/
structure BillingRecord where
  provider : String
  project_name : String
  resource_name : String
  resource_type : String
  amount : ℚ
  currency : String
  period_start : ℕ
  period_end : ℕ
deriving DecidableEq, Repr

/-- The shared `USD_TO_INR_RATE = 90.97` constant of the billing scripts. -/
def USD_TO_INR_RATE : ℚ := 90.97

end MonDash

namespace DOBilling

open MonDash

/-- One entry of the inventory built by `build_inventory_weights`:
estimated monthly price (the weight) and resource type. -/
structure InvItem where
  price : ℚ
  rtype : String
deriving Repr

/-- Computes `theoretical_total = sum(item['price'] for item in inventory.values())`. -/
def totalWeight (inventory : List (String × InvItem)) : ℚ :=
  (inventory.map (fun p => p.2.price)).sum

/-- Computes `r_name.split(": ")[1] if ": " in r_name else r_name`. -/
def cleanName (r_name : String) : String :=
  match MonDash.pySplit r_name ": " with
  | _ :: x :: _ => x
  | _ => r_name

/-- The record-building phase of `digitalocean_billing.main` (lines
141–194): distributes the aggregate month-to-date bill across the
weighted inventory, one record per (day, resource); degenerate cases
as coded. `days_passed` is `now.day`, `today` the current date. -/
def reconcile (real_bill_usd : ℚ) (inventory : List (String × InvItem))
    (days_passed : ℕ) (today : ℕ) : List BillingRecord :=
  let theoretical_total := totalWeight inventory
  if theoretical_total = 0 ∧ real_bill_usd = 0 then []
  else if theoretical_total > 0 then
    let daily_avg_usd := real_bill_usd / (max days_passed 1 : ℕ)
    (List.range' 1 days_passed).flatMap fun day_num =>
      inventory.map fun rn =>
        let weightFrac := rn.2.price / theoretical_total
        let cost_inr := (daily_avg_usd * weightFrac) * USD_TO_INR_RATE
        ⟨"DigitalOcean", "Production", cleanName rn.1, rn.2.rtype,
          pyRound 2 cost_inr, "INR", day_num, day_num⟩
  else if real_bill_usd > 0 then
    [⟨"DigitalOcean", "Global", "Uncategorized", "Misc",
      pyRound 2 (real_bill_usd * USD_TO_INR_RATE), "INR", today, today⟩]
  else []

end DOBilling

namespace AwsBilling

open MonDash

/-- Constant `MIN_COST_THRESHOLD = 0.01` in `aws_billing.py`. -/
def MIN_COST_THRESHOLD : ℚ := 0.01

/-- Function `parse_resource_name` from `aws_billing.py` (lines 58–85). -/
def parse_resource_name (resource_id : String) : String :=
  if resource_id = "" then "Untagged"
  else if MonDash.isPrefixL "arn:".toList resource_id.toList then
    let parts := pySplit resource_id ":"
    if parts.length ≥ 6 then
      let resource_part := parts.getLast!
      if strContains resource_part "/" then (pySplit resource_part "/").getLast!
      else resource_part
    else (pySplit resource_id ":").getLast!
  else if strContains resource_id "/" then (pySplit resource_id "/").getLast!
  else resource_id

/-- The per-group body of `fetch_daily_costs` in `aws_billing.py` (lines
153–189): `none` when the row is skipped as a micro-cost. -/
def awsCostRecord (service resource_id : String) (cost_usd : ℚ)
    (period_start period_end : ℕ) : Option BillingRecord :=
  if cost_usd < MIN_COST_THRESHOLD then none
  else
    let resource_name := parse_resource_name resource_id
    let resource_type := (service.replace "Amazon " "").replace "AWS " ""
    let cost_inr := cost_usd * USD_TO_INR_RATE
    some ⟨"AWS", "Production", resource_name, resource_type,
      pyRound 2 cost_inr, "INR", period_start, period_end⟩

/-- All records produced for a list of Cost Explorer groups sharing one
time period. -/
def awsDailyRecords (rows : List (String × String × ℚ))
    (period_start period_end : ℕ) : List BillingRecord :=
  rows.filterMap fun r => awsCostRecord r.1 r.2.1 r.2.2 period_start period_end

end AwsBilling

namespace OpenAIBilling

open MonDash

/-- Constant `MIN_COST_THRESHOLD = 0.0001` in `openai_billing.py`. -/
def MIN_COST_THRESHOLD : ℚ := 0.0001

/-- The per-result body of `fetch_daily_costs` in `openai_billing.py`
(lines 90–115): note the amount is the raw converted product, with no
rounding applied. -/
def openaiCostRecord (cost_usd : ℚ) (p_name : String) (period_date : ℕ) :
    Option BillingRecord :=
  if cost_usd < MIN_COST_THRESHOLD then none
  else
    let final_amount := cost_usd * USD_TO_INR_RATE
    some ⟨"OpenAI", p_name, "Model Inference", "AI Service",
      final_amount, "INR", period_date, period_date⟩

end OpenAIBilling

namespace AzureBilling

open MonDash

/-- Constant `MIN_COST_THRESHOLD = 0.01` in `Azure_billing.py`. -/
def MIN_COST_THRESHOLD : ℚ := 0.01

/-- The per-row body of `fetch_daily_costs` in `Azure_billing.py` (lines
106–148): INR rows pass through unconverted, others are converted, and
the amount is rounded to two decimals. -/
def azureCostRecord (resource_group r_id clean_type currency : String)
    (cost : ℚ) (date_fmt : ℕ) : Option BillingRecord :=
  if cost < MIN_COST_THRESHOLD then none
  else
    let r_name := if r_id = "" then "Unknown" else (pySplit r_id "/").getLast!
    let final_amount := if currency = "INR" then cost else cost * USD_TO_INR_RATE
    some ⟨"Azure", resource_group, r_name, clean_type,
      pyRound 2 final_amount, "INR", date_fmt, date_fmt⟩

end AzureBilling

namespace Ingestion

open MonDash

/-- The destination `billing_metrics` table as an ordered row multiset. -/
abbrev Table := List BillingRecord

/-- SQL `DELETE FROM billing_metrics WHERE provider = p AND
period_start >= w`: keep exactly the rows not matched. -/
def deleteWindow (provider : String) (window_start : ℕ) (tbl : Table) : Table :=
  tbl.filter fun r => !(r.provider == provider && window_start ≤ r.period_start)

/-- Computes `records.sort(key=...); earliest_date = records[0][6]`: the minimal
`period_start` of the batch (0 for an empty batch, unused there). -/
def earliestStart : Table → ℕ
  | [] => 0
  | r :: rs => rs.foldl (fun a x => min a x.period_start) r.period_start

/-- One statement inside the billing write transaction. -/
inductive TxnOp
  | del (provider : String) (window_start : ℕ)
  | ins (rows : List BillingRecord)

/-- Effect of one successfully executed statement. -/
def applyTxnOp (t : Table) : TxnOp → Table
  | .del p w => deleteWindow p w t
  | .ins rows => t ++ rows

/-- Runs the statements of a transaction on a working snapshot; each is
paired with a success flag, and the first failure aborts (`none`). -/
def execTxnOps : Table → List (TxnOp × Bool) → Option Table
  | t, [] => some t
  | t, (op, ok) :: rest =>
    if ok then execTxnOps (applyTxnOp t op) rest else none

/-- Models the psycopg2 connection context manager wrapping the billing
writes: the transaction's effects are committed on normal exit and
rolled back (committed state unchanged) when a statement raises. -/
def runTransaction (committed : Table) (ops : List (TxnOp × Bool)) : Table :=
  (execTxnOps committed ops).getD committed

/-- The windowed write of the billing `main`s (`aws_billing.py` lines
249–285, `openai_billing.py` lines 124–157): return early on an empty
batch, else delete the provider's window from the earliest batch date
and bulk-insert the batch, inside one transaction. `delOk`/`insOk`
inject statement failures. -/
def runBillingMain (tbl : Table) (records : List BillingRecord)
    (provider : String) (delOk insOk : Bool) : Table :=
  if records.isEmpty then tbl
  else
    runTransaction tbl
      [(TxnOp.del provider (earliestStart records), delOk),
       (TxnOp.ins records, insOk)]

end Ingestion


namespace MonDash

lemma rheInt_intCast (k : ℤ) : rheInt (k : ℚ) = k := by
  unfold rheInt
  rw [Rat.intCast_num, Rat.intCast_den]
  norm_num [Int.fdiv_one k]

/-- Rounding to `n` decimals is idempotent: the formal reading of "the
amount is rounded to `n` decimal places". -/
lemma pyRound_idem (n : ℕ) (x : ℚ) : pyRound n (pyRound n x) = pyRound n x := by
  unfold pyRound
  have h10 : ((10 : ℚ) ^ n) ≠ 0 := by positivity
  rw [div_mul_cancel₀ _ h10, rheInt_intCast]

end MonDash

namespace AwsTelemetry

lemma ite_pos (b : Bool) {x y : ℚ} (hx : 0 < x) (hy : 0 < y) :
    0 < if b then x else y := by
  cases b
  · simpa using hy
  · simpa using hx

lemma heuristicVcpu_pos (size : String) : 0 < heuristicVcpu size := by
  unfold heuristicVcpu
  refine ite_pos _ one_pos (ite_pos _ one_pos (ite_pos _ (by norm_num)
    (ite_pos _ (by norm_num) (ite_pos _ (by norm_num) (ite_pos _ (by norm_num)
    (ite_pos _ (by norm_num) (ite_pos _ (by norm_num) (ite_pos _ (by norm_num)
    (ite_pos _ (by norm_num) (ite_pos _ (by norm_num) (ite_pos _ (by norm_num)
    (ite_pos _ (by norm_num) (ite_pos _ (by norm_num) (by norm_num))))))))))))))

lemma ec2_table_pos : ∀ pr ∈ EC2_INSTANCE_SPECS, 0 < pr.2.1 ∧ 0 < pr.2.2 := by
  intro pr hpr
  fin_cases hpr <;> norm_num

/-- Every tier of the capacity resolver yields strictly positive specs. -/
lemma get_instance_specs_pos (s : String) :
    0 < (get_instance_specs s).1 ∧ 0 < (get_instance_specs s).2 := by
  rw [get_instance_specs]
  cases h : (EC2_INSTANCE_SPECS.find? (fun p => p.1 == s)).map (·.2) with
  | some spec =>
    rcases Option.map_eq_some'.mp h with ⟨pr, hfind, hpr⟩
    subst hpr
    exact ec2_table_pos pr (List.mem_of_find?_eq_some hfind)
  | none =>
    rw [ec2Heuristic]
    by_cases hl : (MonDash.pySplit s ".").length = 2
    · simp only [hl, if_true, Option.getD_some]
      refine ⟨heuristicVcpu_pos _, ?_⟩
      refine ite_pos _ (mul_pos (heuristicVcpu_pos _) (by norm_num))
        (ite_pos _ (mul_pos (heuristicVcpu_pos _) (by norm_num))
          (mul_pos (heuristicVcpu_pos _) (by norm_num)))
    · simp only [hl, if_false, Option.getD_none]
      norm_num

end AwsTelemetry

namespace Ingestion

lemma foldlMin_le_init (xs : List MonDash.BillingRecord) (a : ℕ) :
    xs.foldl (fun b x => min b x.period_start) a ≤ a := by
  induction xs generalizing a with
  | nil => simp
  | cons x xs ih => exact le_trans (ih _) (min_le_left _ _)

lemma foldlMin_le_mem :
    ∀ (xs : List MonDash.BillingRecord) (a : ℕ) (r : MonDash.BillingRecord),
      r ∈ xs → xs.foldl (fun b x => min b x.period_start) a ≤ r.period_start := by
  intro xs
  induction xs with
  | nil => intro a r hr; cases hr
  | cons x xs ih =>
    intro a r hr
    rw [List.foldl_cons]
    rcases List.mem_cons.mp hr with h | h
    · subst h
      exact le_trans (foldlMin_le_init _ _) (min_le_right _ _)
    · exact ih _ _ h

/-- The window start computed by the billing `main`s is a lower bound for
every batch row's `period_start`. -/
lemma earliestStart_le (l : Table) (r : MonDash.BillingRecord) (hr : r ∈ l) :
    earliestStart l ≤ r.period_start := by
  cases l with
  | nil => cases hr
  | cons x xs =>
    rcases List.mem_cons.mp hr with h | h
    · subst h
      exact foldlMin_le_init _ _
    · exact foldlMin_le_mem _ _ _ h

end Ingestion

namespace MonDash

/-- The spec's counter-to-rate contract, stated from its words: negative
value delta (reset) or non-positive time delta gives 0, otherwise the
delta quotient. -/
def counterRateSpec (t_prev v_prev t_curr v_curr : ℚ) : ℚ :=
  if t_curr - t_prev ≤ 0 ∨ v_curr - v_prev < 0 then 0
  else (v_curr - v_prev) / (t_curr - t_prev)

/-- The spec's `clamp(x, lo, hi)`. -/
def clampSpec (lo hi x : ℚ) : ℚ := max lo (min hi x)

/-- The spec's per-day share formula for the billing reconciler:
`daily_avg × (weight / total_weight)`. -/
def specShare (bill : ℚ) (days : ℕ) (total weight : ℚ) : ℚ :=
  (bill / (max days 1 : ℕ)) * (weight / total)

lemma rheInt_fdiv_floor (q : ℚ) : q.num.fdiv (q.den : ℤ) = ⌊q⌋ := by
  rw [Rat.floor_def, Int.fdiv_eq_ediv _ (by positivity)]

lemma pyRound_eq_self (n : ℕ) (x : ℚ) (k : ℤ) (h : x * 10 ^ n = (k : ℚ)) :
    pyRound n x = x := by
  unfold pyRound
  rw [h, rheInt_intCast, div_eq_iff (by positivity : ((10:ℚ) ^ n) ≠ 0)]
  exact h.symm

lemma length_flatMap_const {α β : Type _} (l : List α) (f : α → List β) (c : ℕ)
    (h : ∀ a ∈ l, (f a).length = c) : (l.flatMap f).length = l.length * c := by
  induction l with
  | nil => simp
  | cons x xs ih =>
    rw [List.flatMap_cons, List.length_append, h x (by simp),
      ih (fun a ha => h a (by simp [ha])), List.length_cons]
    ring

end MonDash

/-- C2: for every pair of consecutive counter samples, a negative value
delta (counter reset) or non-positive time delta yields rate 0, and
otherwise the rate is the value delta divided by the time delta; the
computation is total (a guarded division, never a division by zero).
This holds for the DigitalOcean list-based `calculate_rate` and the Azure
three-argument `calculate_rate`. -/
theorem claim_C2_counter_rate_guards :
    (∀ (xs : List (ℚ × ℚ)) (t0 v0 t1 v1 : ℚ),
      DOTelemetry.calculate_rate (xs ++ [(t0, v0), (t1, v1)]) =
        MonDash.counterRateSpec t0 v0 t1 v1) ∧
    (∀ current previous time_diff_seconds : ℚ,
      AzureTelemetry.calculate_rate current previous time_diff_seconds =
        if time_diff_seconds ≤ 0 ∨ current - previous < 0 then 0
        else (current - previous) / time_diff_seconds) := by
  constructor
  · intro xs t0 v0 t1 v1
    have hrev : (xs ++ [(t0, v0), (t1, v1)]).reverse =
        (t1, v1) :: (t0, v0) :: xs.reverse := by simp
    rw [DOTelemetry.calculate_rate, hrev, MonDash.counterRateSpec]
    by_cases h1 : t1 - t0 ≤ 0
    · simp [h1]
    · by_cases h2 : v1 - v0 < 0 <;> simp [h1, h2]
  · intro c p td
    rw [AzureTelemetry.calculate_rate]
    by_cases h1 : td ≤ 0
    · simp [h1]
    · by_cases h2 : c - p < 0 <;> simp [h1, h2]

/-- C6: the capacity resolvers are total functions with positive capacity
output on every string; `get_instance_specs "t3.medium" = (2, 4)` by
table lookup, and `"unknown-size-xyz"` (matched by neither table nor
heuristic, in both providers) falls back to the fixed default tuple. -/
theorem claim_C6_capacity_resolver_total :
    (∀ s : String, 0 < (AwsTelemetry.get_instance_specs s).1 ∧
        0 < (AwsTelemetry.get_instance_specs s).2) ∧
    AwsTelemetry.get_instance_specs "t3.medium" = (2, 4) ∧
    AwsTelemetry.get_instance_specs "unknown-size-xyz" = (2, 4) ∧
    AzureTelemetry.get_vm_specs "unknown-size-xyz" = (2, 8) := by
  refine ⟨AwsTelemetry.get_instance_specs_pos, ?_, ?_, ?_⟩ <;> decide

/-- C5: in the billing windowed write, an insert failure after a
successful delete rolls the transaction back, leaving the committed
table exactly as before the call; and whatever the failure pattern, the
only observable states are the untouched prior table or the fully
replaced window — never a partially written one. -/
theorem claim_C5_rollback_on_insert_failure
    (tbl : Ingestion.Table) (records : List MonDash.BillingRecord)
    (provider : String) :
    Ingestion.runBillingMain tbl records provider true false = tbl ∧
    (∀ delOk insOk : Bool,
      Ingestion.runBillingMain tbl records provider delOk insOk = tbl ∨
      Ingestion.runBillingMain tbl records provider delOk insOk =
        Ingestion.deleteWindow provider (Ingestion.earliestStart records) tbl
          ++ records) := by
  constructor
  · cases hemp : records.isEmpty <;>
      simp [Ingestion.runBillingMain, hemp, Ingestion.runTransaction,
        Ingestion.execTxnOps]
  · intro delOk insOk
    cases hemp : records.isEmpty
    · cases delOk <;> cases insOk <;>
        simp [Ingestion.runBillingMain, hemp, Ingestion.runTransaction,
          Ingestion.execTxnOps, Ingestion.applyTxnOp]
    · left
      simp [Ingestion.runBillingMain, hemp]

/-- C4: running the billing windowed write (delete all provider rows with
`period_start ≥ window_start`, then bulk-insert the batch) twice with the
identical batch — and hence the same derived window start — leaves the
destination table exactly as after one run.  The hypothesis records the
fact, true of every batch the fetchers build, that all batch rows carry
the provider being synced. -/
theorem claim_C4_windowed_write_idempotent
    (tbl : Ingestion.Table) (records : List MonDash.BillingRecord)
    (provider : String)
    (hp : ∀ r ∈ records, r.provider = provider) :
    Ingestion.runBillingMain (Ingestion.runBillingMain tbl records provider true true)
        records provider true true =
      Ingestion.runBillingMain tbl records provider true true := by
  cases hemp : records.isEmpty with
  | true => simp [Ingestion.runBillingMain, hemp]
  | false =>
    simp only [Ingestion.runBillingMain, hemp, Bool.false_eq_true, if_false,
      Ingestion.runTransaction, Ingestion.execTxnOps, Ingestion.applyTxnOp,
      if_true, Option.getD_some]
    rw [Ingestion.deleteWindow, Ingestion.deleteWindow, List.filter_append]
    have hfilter : ∀ l : Ingestion.Table,
        (l.filter fun r =>
            !(r.provider == provider &&
              Ingestion.earliestStart records ≤ r.period_start)).filter
          (fun r =>
            !(r.provider == provider &&
              Ingestion.earliestStart records ≤ r.period_start)) =
        l.filter fun r =>
          !(r.provider == provider &&
            Ingestion.earliestStart records ≤ r.period_start) := by
      intro l
      rw [List.filter_filter]
      congr 1
      funext r
      rw [Bool.and_self]
    have hrec : records.filter
        (fun r =>
          !(r.provider == provider &&
            Ingestion.earliestStart records ≤ r.period_start)) = [] := by
      rw [List.filter_eq_nil_iff]
      intro r hr
      simp [hp r hr, Ingestion.earliestStart_le records r hr]
    rw [hfilter, hrec, List.append_nil]

/-- C3: with a positive total weight the reconciler emits one record per
(elapsed day, resource), whose amount is the spec's share formula
`daily_avg × (weight/total_weight)` converted and rounded; on the spec's
example (bill 300, weights A:10 B:20, 10 days) each A-record carries the
per-day share 10 and each B-record 20 (in INR at the fixed rate), and
the 20 emitted shares sum to the whole 300. -/
theorem claim_C3_weighted_bill_distribution :
    (∀ (bill : ℚ) (inv : List (String × DOBilling.InvItem)) (days today : ℕ),
      0 < DOBilling.totalWeight inv →
      (DOBilling.reconcile bill inv days today).length = days * inv.length ∧
      ∀ r ∈ DOBilling.reconcile bill inv days today, ∃ p ∈ inv,
        r.resource_name = DOBilling.cleanName p.1 ∧
        r.amount = MonDash.pyRound 2
          (MonDash.specShare bill days (DOBilling.totalWeight inv) p.2.price *
            MonDash.USD_TO_INR_RATE)) ∧
    ((DOBilling.reconcile 300 [("A", ⟨10, "Compute"⟩), ("B", ⟨20, "Compute"⟩)] 10 99).map
        (·.amount) =
      (List.replicate 10
        [10 * MonDash.USD_TO_INR_RATE, 20 * MonDash.USD_TO_INR_RATE]).flatten) ∧
    ((DOBilling.reconcile 300 [("A", ⟨10, "Compute"⟩), ("B", ⟨20, "Compute"⟩)] 10 99).map
        (·.amount)).sum = 300 * MonDash.USD_TO_INR_RATE := by
  have ht : DOBilling.totalWeight [("A", ⟨10, "Compute"⟩), ("B", ⟨20, "Compute"⟩)] = 30 := by
    simp [DOBilling.totalWeight]
    norm_num
  have hrange : List.range' 1 10 = [1, 2, 3, 4, 5, 6, 7, 8, 9, 10] := by decide
  have hA : MonDash.pyRound 2
      ((300 : ℚ) / ((10 ⊔ 1 : ℕ) : ℚ) * (10 / 30) * MonDash.USD_TO_INR_RATE) =
      10 * MonDash.USD_TO_INR_RATE := by
    have hv : (300 : ℚ) / ((10 ⊔ 1 : ℕ) : ℚ) * (10 / 30) * MonDash.USD_TO_INR_RATE =
        9097 / 10 := by
      norm_num [MonDash.USD_TO_INR_RATE]
    rw [hv, MonDash.pyRound_eq_self 2 _ 90970 (by norm_num)]
    norm_num [MonDash.USD_TO_INR_RATE]
  have hB : MonDash.pyRound 2
      ((300 : ℚ) / ((10 ⊔ 1 : ℕ) : ℚ) * (20 / 30) * MonDash.USD_TO_INR_RATE) =
      20 * MonDash.USD_TO_INR_RATE := by
    have hv : (300 : ℚ) / ((10 ⊔ 1 : ℕ) : ℚ) * (20 / 30) * MonDash.USD_TO_INR_RATE =
        9097 / 5 := by
      norm_num [MonDash.USD_TO_INR_RATE]
    rw [hv, MonDash.pyRound_eq_self 2 _ 181940 (by norm_num)]
    norm_num [MonDash.USD_TO_INR_RATE]
  have hmap : (DOBilling.reconcile 300
        [("A", ⟨10, "Compute"⟩), ("B", ⟨20, "Compute"⟩)] 10 99).map (·.amount) =
      (List.replicate 10
        [10 * MonDash.USD_TO_INR_RATE, 20 * MonDash.USD_TO_INR_RATE]).flatten := by
    rw [DOBilling.reconcile, ht]
    rw [if_neg (by norm_num), if_pos (by norm_num), hrange]
    simp only [List.flatMap_cons, List.flatMap_nil, List.map_cons, List.map_nil,
      List.map_append, List.append_nil]
    rw [hA, hB]
    rfl
  refine ⟨?_, hmap, ?_⟩
  · intro bill inv days today hw
    have hne : ¬(DOBilling.totalWeight inv = 0 ∧ bill = 0) := by
      rintro ⟨h0, _⟩
      exact absurd h0 (ne_of_gt hw)
    constructor
    · rw [DOBilling.reconcile, if_neg hne, if_pos hw]
      rw [MonDash.length_flatMap_const _ _ inv.length
        (by intro d _; rw [List.length_map]), List.length_range']
    · intro r hr
      rw [DOBilling.reconcile, if_neg hne, if_pos hw] at hr
      rcases List.mem_flatMap.mp hr with ⟨d, hd, hr2⟩
      rcases List.mem_map.mp hr2 with ⟨p, hp, rfl⟩
      refine ⟨p, hp, rfl, ?_⟩
      simp [MonDash.specShare]
  · rw [hmap]
    simp only [List.flatten, List.replicate, List.sum_cons, List.sum_nil, List.append_nil]
    norm_num [MonDash.USD_TO_INR_RATE]

/-- Witness for C3: the general distribution law applied at the spec's
concrete example. -/
theorem claim_C3_weighted_bill_distribution_witness :
    0 < DOBilling.totalWeight [("A", ⟨10, "Compute"⟩), ("B", ⟨20, "Compute"⟩)] ∧
    ((DOBilling.reconcile 300 [("A", ⟨10, "Compute"⟩), ("B", ⟨20, "Compute"⟩)] 10 99).length =
        10 * 2 ∧
      ∀ r ∈ DOBilling.reconcile 300
          [("A", ⟨10, "Compute"⟩), ("B", ⟨20, "Compute"⟩)] 10 99,
        ∃ p ∈ [(("A" : String), (⟨10, "Compute"⟩ : DOBilling.InvItem)), ("B", ⟨20, "Compute"⟩)],
          r.resource_name = DOBilling.cleanName p.1 ∧
          r.amount = MonDash.pyRound 2
            (MonDash.specShare 300 10
              (DOBilling.totalWeight [("A", ⟨10, "Compute"⟩), ("B", ⟨20, "Compute"⟩)])
              p.2.price * MonDash.USD_TO_INR_RATE)) := by
  have hw : 0 < DOBilling.totalWeight
      [("A", (⟨10, "Compute"⟩ : DOBilling.InvItem)), ("B", ⟨20, "Compute"⟩)] := by
    simp [DOBilling.totalWeight]
    norm_num
  exact ⟨hw, claim_C3_weighted_bill_distribution.1 300
    [("A", ⟨10, "Compute"⟩), ("B", ⟨20, "Compute"⟩)] 10 99 hw⟩

/-- C7: with zero total weight and a positive aggregate bill, the
reconciler emits exactly one record for the current date attributing the
whole converted bill to the Uncategorized/Misc bucket; with zero total
weight and a zero bill it emits nothing; neither case divides by zero.
On the spec's example (`bill = 50`, empty weights) the single record's
amount is exactly `50 × USD_TO_INR_RATE`. -/
theorem claim_C7_degenerate_reconciler :
    (∀ (bill : ℚ) (inv : List (String × DOBilling.InvItem)) (days today : ℕ),
      DOBilling.totalWeight inv = 0 → 0 < bill →
      DOBilling.reconcile bill inv days today =
        [⟨"DigitalOcean", "Global", "Uncategorized", "Misc",
          MonDash.pyRound 2 (bill * MonDash.USD_TO_INR_RATE), "INR", today, today⟩]) ∧
    (∀ (bill : ℚ) (inv : List (String × DOBilling.InvItem)) (days today : ℕ),
      DOBilling.totalWeight inv = 0 → bill = 0 →
      DOBilling.reconcile bill inv days today = []) ∧
    DOBilling.reconcile 50 [] 5 42 =
      [⟨"DigitalOcean", "Global", "Uncategorized", "Misc",
        50 * MonDash.USD_TO_INR_RATE, "INR", 42, 42⟩] := by
  refine ⟨?_, ?_, ?_⟩
  · intro bill inv days today h0 hb
    have h1 : ¬(DOBilling.totalWeight inv = 0 ∧ bill = 0) := by
      rintro ⟨_, hb0⟩
      exact absurd hb0 (ne_of_gt hb)
    have h2 : ¬ DOBilling.totalWeight inv > 0 := by
      rw [h0]
      exact lt_irrefl 0
    rw [DOBilling.reconcile, if_neg h1, if_neg h2, if_pos hb]
  · intro bill inv days today h0 hb0
    rw [DOBilling.reconcile, if_pos ⟨h0, hb0⟩]
  · have h1 : ¬(DOBilling.totalWeight ([] : List (String × DOBilling.InvItem)) = 0 ∧
        (50 : ℚ) = 0) := by
      rintro ⟨_, hb0⟩
      norm_num at hb0
    have h2 : ¬ DOBilling.totalWeight ([] : List (String × DOBilling.InvItem)) > 0 := by
      simp [DOBilling.totalWeight]
    rw [DOBilling.reconcile, if_neg h1, if_neg h2, if_pos (by norm_num)]
    rw [MonDash.pyRound_eq_self 2 _ 454850 (by norm_num [MonDash.USD_TO_INR_RATE])]

/-- Witness for C7: both degenerate branches applied at the spec's
concrete example inputs. -/
theorem claim_C7_degenerate_reconciler_witness :
    (DOBilling.totalWeight ([] : List (String × DOBilling.InvItem)) = 0 ∧
      (0 : ℚ) < 50 ∧ (0 : ℚ) = 0) ∧
    DOBilling.reconcile 50 [] 5 42 =
      [⟨"DigitalOcean", "Global", "Uncategorized", "Misc",
        MonDash.pyRound 2 (50 * MonDash.USD_TO_INR_RATE), "INR", 42, 42⟩] ∧
    DOBilling.reconcile 0 [] 5 42 = [] := by
  have h0 : DOBilling.totalWeight ([] : List (String × DOBilling.InvItem)) = 0 := rfl
  exact ⟨⟨h0, by norm_num, rfl⟩,
    claim_C7_degenerate_reconciler.1 50 [] 5 42 h0 (by norm_num),
    claim_C7_degenerate_reconciler.2.1 0 [] 5 42 h0 rfl⟩

namespace MonDash

lemma rheInt_eq_floor_cases (q : ℚ) :
    rheInt q =
      if q - (⌊q⌋ : ℚ) < 1 / 2 then ⌊q⌋
      else if 1 / 2 < q - (⌊q⌋ : ℚ) then ⌊q⌋ + 1
      else if (⌊q⌋ : ℤ) % 2 = 0 then ⌊q⌋ else ⌊q⌋ + 1 := by
  unfold rheInt
  rw [rheInt_fdiv_floor]

end MonDash

/-- C8 (amended): every billing record written by any provider path has
currency INR; the AWS, Azure and DigitalOcean paths write amounts
rounded to 2 decimal places, while the OpenAI path writes the raw
converted product without rounding. -/
theorem claim_C8_amount_rounding_and_currency :
    (∀ (service rid : String) (c : ℚ) (ps pe : ℕ) (r : MonDash.BillingRecord),
      AwsBilling.awsCostRecord service rid c ps pe = some r →
      r.currency = "INR" ∧ MonDash.pyRound 2 r.amount = r.amount) ∧
    (∀ (rg rid ct curr : String) (c : ℚ) (d : ℕ) (r : MonDash.BillingRecord),
      AzureBilling.azureCostRecord rg rid ct curr c d = some r →
      r.currency = "INR" ∧ MonDash.pyRound 2 r.amount = r.amount) ∧
    (∀ (bill : ℚ) (inv : List (String × DOBilling.InvItem)) (days today : ℕ),
      ∀ r ∈ DOBilling.reconcile bill inv days today,
      r.currency = "INR" ∧ MonDash.pyRound 2 r.amount = r.amount) ∧
    (∀ (c : ℚ) (pn : String) (d : ℕ) (r : MonDash.BillingRecord),
      OpenAIBilling.openaiCostRecord c pn d = some r → r.currency = "INR") := by
  refine ⟨?_, ?_, ?_, ?_⟩
  · intro service rid c ps pe r h
    rw [AwsBilling.awsCostRecord] at h
    by_cases hc : c < AwsBilling.MIN_COST_THRESHOLD
    · rw [if_pos hc] at h
      cases h
    · rw [if_neg hc] at h
      simp only [Option.some.injEq] at h
      subst h
      exact ⟨rfl, MonDash.pyRound_idem 2 _⟩
  · intro rg rid ct curr c d r h
    rw [AzureBilling.azureCostRecord] at h
    by_cases hc : c < AzureBilling.MIN_COST_THRESHOLD
    · rw [if_pos hc] at h
      cases h
    · rw [if_neg hc] at h
      simp only [Option.some.injEq] at h
      subst h
      exact ⟨rfl, MonDash.pyRound_idem 2 _⟩
  · intro bill inv days today r hr
    rw [DOBilling.reconcile] at hr
    split_ifs at hr
    · cases hr
    · rcases List.mem_flatMap.mp hr with ⟨d, _, hr2⟩
      rcases List.mem_map.mp hr2 with ⟨p, _, rfl⟩
      exact ⟨rfl, MonDash.pyRound_idem 2 _⟩
    · rcases List.mem_singleton.mp hr with rfl
      exact ⟨rfl, MonDash.pyRound_idem 2 _⟩
    · cases hr
  · intro c pn d r h
    rw [OpenAIBilling.openaiCostRecord] at h
    by_cases hc : c < OpenAIBilling.MIN_COST_THRESHOLD
    · rw [if_pos hc] at h
      cases h
    · rw [if_neg hc] at h
      simp only [Option.some.injEq] at h
      subst h
      rfl

/-- Witness for C8: the rounding/currency invariant applied to a concrete
AWS record above the threshold. -/
theorem claim_C8_amount_rounding_and_currency_witness :
    AwsBilling.awsCostRecord "Amazon Elastic Compute Cloud" "i-abc" 1 3 4 =
      some ⟨"AWS", "Production", AwsBilling.parse_resource_name "i-abc",
        ("Amazon Elastic Compute Cloud".replace "Amazon " "").replace "AWS " "",
        MonDash.pyRound 2 (1 * MonDash.USD_TO_INR_RATE), "INR", 3, 4⟩ ∧
    (MonDash.BillingRecord.currency
        ⟨"AWS", "Production", AwsBilling.parse_resource_name "i-abc",
          ("Amazon Elastic Compute Cloud".replace "Amazon " "").replace "AWS " "",
          MonDash.pyRound 2 (1 * MonDash.USD_TO_INR_RATE), "INR", 3, 4⟩ = "INR" ∧
      MonDash.pyRound 2 (MonDash.BillingRecord.amount
        ⟨"AWS", "Production", AwsBilling.parse_resource_name "i-abc",
          ("Amazon Elastic Compute Cloud".replace "Amazon " "").replace "AWS " "",
          MonDash.pyRound 2 (1 * MonDash.USD_TO_INR_RATE), "INR", 3, 4⟩) =
        MonDash.BillingRecord.amount
          ⟨"AWS", "Production", AwsBilling.parse_resource_name "i-abc",
            ("Amazon Elastic Compute Cloud".replace "Amazon " "").replace "AWS " "",
            MonDash.pyRound 2 (1 * MonDash.USD_TO_INR_RATE), "INR", 3, 4⟩) := by
  have h : AwsBilling.awsCostRecord "Amazon Elastic Compute Cloud" "i-abc" 1 3 4 =
      some ⟨"AWS", "Production", AwsBilling.parse_resource_name "i-abc",
        ("Amazon Elastic Compute Cloud".replace "Amazon " "").replace "AWS " "",
        MonDash.pyRound 2 (1 * MonDash.USD_TO_INR_RATE), "INR", 3, 4⟩ := by
    rw [AwsBilling.awsCostRecord,
      if_neg (by norm_num [AwsBilling.MIN_COST_THRESHOLD])]
  exact ⟨h, claim_C8_amount_rounding_and_currency.1 _ _ _ _ _ _ h⟩

/-- Counterexample for C8 as stated: the OpenAI path emits a record whose
amount `0.01 × 90.97 = 0.9097` is not rounded to 2 decimal places. -/
theorem claim_C8_counterexample :
    OpenAIBilling.openaiCostRecord (1 / 100) "proj" 7 =
      some ⟨"OpenAI", "proj", "Model Inference", "AI Service",
        1 / 100 * MonDash.USD_TO_INR_RATE, "INR", 7, 7⟩ ∧
    MonDash.pyRound 2 ((1 : ℚ) / 100 * MonDash.USD_TO_INR_RATE) ≠
      (1 : ℚ) / 100 * MonDash.USD_TO_INR_RATE := by
  constructor
  · rw [OpenAIBilling.openaiCostRecord,
      if_neg (by norm_num [OpenAIBilling.MIN_COST_THRESHOLD])]
  · rw [show (1 : ℚ) / 100 * MonDash.USD_TO_INR_RATE = 9097 / 10000 by
      norm_num [MonDash.USD_TO_INR_RATE]]
    rw [MonDash.pyRound,
      show (9097 / 10000 : ℚ) * 10 ^ 2 = 9097 / 100 by norm_num,
      MonDash.rheInt_eq_floor_cases,
      show ⌊(9097 / 100 : ℚ)⌋ = 90 by norm_num]
    rw [if_neg (by norm_num), if_pos (by norm_num)]
    norm_num

/-- C10: a provider cost row whose pre-conversion USD amount is below the
script's fixed threshold (0.01 for AWS, 0.0001 for OpenAI) produces no
billing record; consequently, on a concrete batch containing one
micro-cost row, the sum of written amounts is strictly below the
provider's reported aggregate for the window. -/
theorem claim_C10_micro_cost_rows_skipped :
    (∀ (service rid : String) (c : ℚ) (ps pe : ℕ),
      c < AwsBilling.MIN_COST_THRESHOLD →
      AwsBilling.awsCostRecord service rid c ps pe = none) ∧
    (∀ (c : ℚ) (pn : String) (d : ℕ),
      c < OpenAIBilling.MIN_COST_THRESHOLD →
      OpenAIBilling.openaiCostRecord c pn d = none) ∧
    ((AwsBilling.awsDailyRecords
        [("Amazon Elastic Compute Cloud", "i-a", 1 / 200),
         ("Amazon Elastic Compute Cloud", "i-b", 5)] 3 4).map (·.amount)).sum <
      (1 / 200 + 5) * MonDash.USD_TO_INR_RATE := by
  refine ⟨?_, ?_, ?_⟩
  · intro service rid c ps pe hc
    rw [AwsBilling.awsCostRecord, if_pos hc]
  · intro c pn d hc
    rw [OpenAIBilling.openaiCostRecord, if_pos hc]
  · have h1 : AwsBilling.awsCostRecord "Amazon Elastic Compute Cloud" "i-a"
        (1 / 200) 3 4 = none := by
      rw [AwsBilling.awsCostRecord,
        if_pos (by norm_num [AwsBilling.MIN_COST_THRESHOLD])]
    have h2 : AwsBilling.awsCostRecord "Amazon Elastic Compute Cloud" "i-b"
        (5 : ℚ) 3 4 =
        some ⟨"AWS", "Production", AwsBilling.parse_resource_name "i-b",
          ("Amazon Elastic Compute Cloud".replace "Amazon " "").replace "AWS " "",
          MonDash.pyRound 2 (5 * MonDash.USD_TO_INR_RATE), "INR", 3, 4⟩ := by
      rw [AwsBilling.awsCostRecord,
        if_neg (by norm_num [AwsBilling.MIN_COST_THRESHOLD])]
    simp only [AwsBilling.awsDailyRecords, List.filterMap_cons, List.filterMap_nil,
      h1, h2, List.map_cons, List.map_nil, List.sum_cons, List.sum_nil]
    rw [show (5 : ℚ) * MonDash.USD_TO_INR_RATE = 9097 / 20 by
        norm_num [MonDash.USD_TO_INR_RATE],
      MonDash.pyRound_eq_self 2 _ 45485 (by norm_num)]
    norm_num [MonDash.USD_TO_INR_RATE]

/-- Witness for C10: both threshold guards applied at concrete sub-threshold
costs. -/
theorem claim_C10_micro_cost_rows_skipped_witness :
    ((1 : ℚ) / 200 < AwsBilling.MIN_COST_THRESHOLD ∧
      AwsBilling.awsCostRecord "Amazon Elastic Compute Cloud" "i-a" (1 / 200) 3 4 =
        none) ∧
    ((1 : ℚ) / 20000 < OpenAIBilling.MIN_COST_THRESHOLD ∧
      OpenAIBilling.openaiCostRecord (1 / 20000) "proj" 7 = none) := by
  have ha : (1 : ℚ) / 200 < AwsBilling.MIN_COST_THRESHOLD := by
    norm_num [AwsBilling.MIN_COST_THRESHOLD]
  have ho : (1 : ℚ) / 20000 < OpenAIBilling.MIN_COST_THRESHOLD := by
    norm_num [OpenAIBilling.MIN_COST_THRESHOLD]
  exact ⟨⟨ha, claim_C10_micro_cost_rows_skipped.1 _ _ _ 3 4 ha⟩,
    ⟨ho, claim_C10_micro_cost_rows_skipped.2.1 _ "proj" 7 ho⟩⟩

namespace DOTelemetry

lemma netRow_mem (dr : String) (net : List Series) (m : DOMetricTuple)
    (hm : m ∈ netRow dr net) :
    m.total = 0 ∧ m.pct = 0 ∧ m.mtype = "net_" ++ dr := by
  cases net with
  | nil =>
    rw [netRow] at hm
    cases hm
  | cons s rest =>
    rw [netRow] at hm
    by_cases hv : (!s.values.isEmpty) = true
    · rw [if_pos hv] at hm
      rcases List.mem_singleton.mp hm with rfl
      exact ⟨rfl, rfl, rfl⟩
    · rw [if_neg hv] at hm
      cases hm

end DOTelemetry

/-- C1 (amended): every telemetry row built by the AWS EC2 scanner and
every metric tuple built by the DigitalOcean droplet processor satisfies
`percent_usage = used/total × 100` whenever `total_value > 0` (the raw
equality, with no clamping applied on the AWS path) and
`percent_usage = 0` whenever `total_value ≤ 0`. -/
theorem claim_C1_percent_usage_consistency :
    (∀ (region : String) (now : ℚ) (inst : AwsTelemetry.Ec2Instance),
      ∀ row ∈ AwsTelemetry.scan_ec2_instance region now inst,
        (0 < row.total_value →
          row.percent_usage = row.used_value / row.total_value * 100) ∧
        (row.total_value ≤ 0 → row.percent_usage = 0)) ∧
    (∀ (specs : DOTelemetry.DropletSpecs) (f : DOTelemetry.DropletFetches),
      ∀ m ∈ DOTelemetry.process_droplet specs f,
        (0 < m.total → m.pct = m.used / m.total * 100) ∧
        (m.total ≤ 0 → m.pct = 0)) := by
  constructor
  · intro region now inst row hrow
    rw [AwsTelemetry.scan_ec2_instance] at hrow
    simp only [List.mem_append, List.mem_cons, List.mem_singleton,
      List.not_mem_nil, or_false, List.cons_append, List.nil_append] at hrow
    rcases hrow with h | h | h | h | h
    · subst h
      constructor
      · intro _
        have hne : (AwsTelemetry.get_instance_specs inst.instance_type).1 ≠ 0 :=
          ne_of_gt (AwsTelemetry.get_instance_specs_pos _).1
        field_simp
        ring
      · intro hle
        exact absurd hle (not_le.mpr (AwsTelemetry.get_instance_specs_pos _).1)
    · by_cases hm : AwsTelemetry.get_cloudwatch_metric inst.memFetch > 0
      · rw [if_pos hm] at h
        rcases List.mem_singleton.mp h with rfl
        constructor
        · intro _
          have hne : (AwsTelemetry.get_instance_specs inst.instance_type).2 ≠ 0 :=
            ne_of_gt (AwsTelemetry.get_instance_specs_pos _).2
          field_simp
          ring
        · intro hle
          exact absurd hle (not_le.mpr (AwsTelemetry.get_instance_specs_pos _).2)
      · rw [if_neg hm] at h
        cases h
    · subst h
      exact ⟨fun hpos => absurd hpos (lt_irrefl 0), fun _ => rfl⟩
    · subst h
      exact ⟨fun hpos => absurd hpos (lt_irrefl 0), fun _ => rfl⟩
    · subst h
      constructor
      · intro _
        rw [div_one]
      · intro hle
        norm_num at hle
  · intro specs f m hm
    rw [DOTelemetry.process_droplet] at hm
    simp only [List.mem_append] at hm
    rcases hm with (((h | h) | h) | h) | h
    · by_cases hf : (!(f.cpu.filter
          (fun r => DOTelemetry.seriesLabel r "mode" == some "idle")).isEmpty) = true
      · rw [if_pos hf] at h
        by_cases hc : specs.cpu_total > 0
        · rw [if_pos hc] at h
          rcases List.mem_singleton.mp h with rfl
          constructor
          · intro _
            have hne : specs.cpu_total ≠ 0 := ne_of_gt hc
            field_simp
          · intro hle
            exact absurd hle (not_le.mpr hc)
        · rw [if_neg hc] at h
          cases h
      · rw [if_neg hf] at h
        cases h
    · by_cases hr : specs.ram_total > 0
      · rw [if_pos hr] at h
        rcases List.mem_singleton.mp h with rfl
        exact ⟨fun _ => rfl, fun hle => absurd hle (not_le.mpr hr)⟩
      · rw [if_neg hr] at h
        cases h
    · by_cases hd : (DOTelemetry.diskScan f.filesystem_free false 0).1 = true
      · rw [if_pos hd] at h
        by_cases hdt : specs.disk_total > 0
        · rw [if_pos hdt] at h
          rcases List.mem_singleton.mp h with rfl
          exact ⟨fun _ => rfl, fun hle => absurd hle (not_le.mpr hdt)⟩
        · rw [if_neg hdt] at h
          cases h
      · rw [if_neg hd] at h
        cases h
    · obtain ⟨ht, hp, _⟩ := DOTelemetry.netRow_mem _ _ _ h
      refine ⟨fun hpos => absurd hpos ?_, fun _ => hp⟩
      rw [ht]
      exact lt_irrefl 0
    · obtain ⟨ht, hp, _⟩ := DOTelemetry.netRow_mem _ _ _ h
      refine ⟨fun hpos => absurd hpos ?_, fun _ => hp⟩
      rw [ht]
      exact lt_irrefl 0

/-- Counterexample for C1 as stated: with a CloudWatch CPU reading of 150
(the raw metric is written through unclamped), the scanner emits a row
with `total_value = 2 > 0` whose `percent_usage` is 150, not
`clamp(used/total×100, 0, 100) = 100`. -/
theorem claim_C1_counterexample :
    (AwsTelemetry.scan_ec2_instance "us-east-1" 0
        ⟨"web-1", "t3.medium", "running", some 150, none, none, none⟩)[0]? =
      some ⟨0, "AWS", "us-east-1", "web-1", "cpu_usage", 3, 2, 150, "vCPU"⟩ ∧
    (0 : ℚ) < 2 ∧
    (150 : ℚ) ≠ MonDash.clampSpec 0 100 (3 / 2 * 100) := by
  refine ⟨?_, by norm_num, ?_⟩
  · simp [AwsTelemetry.scan_ec2_instance, AwsTelemetry.get_cloudwatch_metric,
      AwsTelemetry.get_instance_specs, AwsTelemetry.EC2_INSTANCE_SPECS, List.find?]
    norm_num
  · rw [MonDash.clampSpec]
    norm_num

/-- Witness for C1: the amended invariant applied to the concrete
`cpu_usage` row of a scanned instance. -/
theorem claim_C1_percent_usage_consistency_witness :
    (⟨0, "AWS", "us-east-1", "web-1", "cpu_usage", 3, 2, 150, "vCPU"⟩ :
        MonDash.MetricSample) ∈
      AwsTelemetry.scan_ec2_instance "us-east-1" 0
        ⟨"web-1", "t3.medium", "running", some 150, none, none, none⟩ ∧
    ((0 < (2 : ℚ) → (150 : ℚ) = 3 / 2 * 100) ∧
      ((2 : ℚ) ≤ 0 → (150 : ℚ) = 0)) := by
  have hmem : (⟨0, "AWS", "us-east-1", "web-1", "cpu_usage", 3, 2, 150, "vCPU"⟩ :
        MonDash.MetricSample) ∈
      AwsTelemetry.scan_ec2_instance "us-east-1" 0
        ⟨"web-1", "t3.medium", "running", some 150, none, none, none⟩ := by
    simp [AwsTelemetry.scan_ec2_instance, AwsTelemetry.get_cloudwatch_metric,
      AwsTelemetry.get_instance_specs, AwsTelemetry.EC2_INSTANCE_SPECS, List.find?]
    norm_num
  exact ⟨hmem, claim_C1_percent_usage_consistency.1 "us-east-1" 0
    ⟨"web-1", "t3.medium", "running", some 150, none, none, none⟩ _ hmem⟩

/-- C9 (amended): a failed per-resource metric fetch yields the collector
default 0.0 instead of aborting: samples guarded by a positivity check
(the AWS memory row; the DO CPU row, whose series list is empty on
failure) are skipped, while the unguarded AWS `cpu_usage` row is still
written with zeroed values; and scanning is per-instance independent, so
the run continues with the remaining resources. -/
theorem claim_C9_fetch_failure_handling :
    (∀ (region : String) (now : ℚ) (inst : AwsTelemetry.Ec2Instance),
      inst.memFetch = none →
      ∀ row ∈ AwsTelemetry.scan_ec2_instance region now inst,
        row.metric_type ≠ "ram_usage") ∧
    (∀ (region : String) (now : ℚ) (inst : AwsTelemetry.Ec2Instance),
      inst.cpuFetch = none →
      (AwsTelemetry.scan_ec2_instance region now inst)[0]? =
        some ⟨now, "AWS", region, inst.instance_name, "cpu_usage", 0,
          (AwsTelemetry.get_instance_specs inst.instance_type).1, 0, "vCPU"⟩) ∧
    (∀ (specs : DOTelemetry.DropletSpecs) (f : DOTelemetry.DropletFetches),
      f.cpu = [] →
      ∀ m ∈ DOTelemetry.process_droplet specs f, m.mtype ≠ "cpu_usage") ∧
    (∀ (region : String) (now : ℚ) (xs ys : List AwsTelemetry.Ec2Instance),
      AwsTelemetry.scan_ec2_instances region now (xs ++ ys) =
        AwsTelemetry.scan_ec2_instances region now xs ++
          AwsTelemetry.scan_ec2_instances region now ys) := by
  refine ⟨?_, ?_, ?_, ?_⟩
  · intro region now inst hm row hrow
    rw [AwsTelemetry.scan_ec2_instance, hm] at hrow
    simp only [AwsTelemetry.get_cloudwatch_metric, gt_iff_lt, lt_self_iff_false,
      if_false, List.cons_append, List.nil_append, List.mem_cons,
      List.not_mem_nil, or_false] at hrow
    rcases hrow with h | h | h | h <;> subst h <;> simp
  · intro region now inst hc
    rw [AwsTelemetry.scan_ec2_instance, hc]
    simp only [AwsTelemetry.get_cloudwatch_metric, List.cons_append,
      List.getElem?_cons_zero, Option.some.injEq, MonDash.MetricSample.mk.injEq]
    norm_num
  · intro specs f hcpu m hmem
    rw [DOTelemetry.process_droplet, hcpu] at hmem
    simp only [List.filter_nil, List.isEmpty_nil, Bool.not_true,
      Bool.false_eq_true, if_false, List.nil_append, List.mem_append] at hmem
    rcases hmem with ((h | h) | h) | h
    · by_cases hr : specs.ram_total > 0
      · rw [if_pos hr] at h
        rcases List.mem_singleton.mp h with rfl
        simp
      · rw [if_neg hr] at h
        cases h
    · by_cases hd : (DOTelemetry.diskScan f.filesystem_free false 0).1 = true
      · rw [if_pos hd] at h
        by_cases hdt : specs.disk_total > 0
        · rw [if_pos hdt] at h
          rcases List.mem_singleton.mp h with rfl
          simp
        · rw [if_neg hdt] at h
          cases h
      · rw [if_neg hd] at h
        cases h
    · obtain ⟨_, _, hty⟩ := DOTelemetry.netRow_mem _ _ _ h
      rw [hty]
      decide
    · obtain ⟨_, _, hty⟩ := DOTelemetry.netRow_mem _ _ _ h
      rw [hty]
      decide
  · intro region now xs ys
    rw [AwsTelemetry.scan_ec2_instances, AwsTelemetry.scan_ec2_instances,
      AwsTelemetry.scan_ec2_instances, List.flatMap_append]

/-- Counterexample for C9 as stated: when every CloudWatch query fails
for an instance, the scanner still writes four rows — in particular a
zero-valued `cpu_usage` sample for the very metric whose fetch failed —
rather than skipping the failed metric's sample. -/
theorem claim_C9_counterexample :
    (⟨"web-1", "t3.medium", "running", none, none, none, none⟩ :
        AwsTelemetry.Ec2Instance).cpuFetch = none ∧
    AwsTelemetry.scan_ec2_instance "us-east-1" 0
        ⟨"web-1", "t3.medium", "running", none, none, none, none⟩ =
      [⟨0, "AWS", "us-east-1", "web-1", "cpu_usage", 0, 2, 0, "vCPU"⟩,
       ⟨0, "AWS", "us-east-1", "web-1", "net_inbound", 0, 0, 0, "Mbps"⟩,
       ⟨0, "AWS", "us-east-1", "web-1", "net_outbound", 0, 0, 0, "Mbps"⟩,
       ⟨0, "AWS", "us-east-1", "web-1", "instance_status", 1, 1, 100, "boolean"⟩] := by
  refine ⟨rfl, ?_⟩
  simp [AwsTelemetry.scan_ec2_instance, AwsTelemetry.get_cloudwatch_metric,
    AwsTelemetry.get_instance_specs, AwsTelemetry.EC2_INSTANCE_SPECS, List.find?]

/-- Witness for C9: the amended failure-handling law applied to an
instance and a droplet whose metric fetches all failed. -/
theorem claim_C9_fetch_failure_handling_witness :
    ((⟨"web-1", "t3.medium", "running", none, none, none, none⟩ :
        AwsTelemetry.Ec2Instance).memFetch = none ∧
      ∀ row ∈ AwsTelemetry.scan_ec2_instance "us-east-1" 0
          ⟨"web-1", "t3.medium", "running", none, none, none, none⟩,
        row.metric_type ≠ "ram_usage") ∧
    ((⟨"web-1", "t3.medium", "running", none, none, none, none⟩ :
        AwsTelemetry.Ec2Instance).cpuFetch = none ∧
      (AwsTelemetry.scan_ec2_instance "us-east-1" 0
          ⟨"web-1", "t3.medium", "running", none, none, none, none⟩)[0]? =
        some ⟨0, "AWS", "us-east-1", "web-1", "cpu_usage", 0,
          (AwsTelemetry.get_instance_specs "t3.medium").1, 0, "vCPU"⟩) ∧
    ((⟨[], [], [], [], [], [], []⟩ : DOTelemetry.DropletFetches).cpu = [] ∧
      ∀ m ∈ DOTelemetry.process_droplet ⟨"d-1", "Production", 1, 1, 25⟩
          ⟨[], [], [], [], [], [], []⟩,
        m.mtype ≠ "cpu_usage") := by
  refine ⟨⟨rfl, ?_⟩, ⟨rfl, ?_⟩, ⟨rfl, ?_⟩⟩
  · exact claim_C9_fetch_failure_handling.1 "us-east-1" 0
      ⟨"web-1", "t3.medium", "running", none, none, none, none⟩ rfl
  · exact claim_C9_fetch_failure_handling.2.1 "us-east-1" 0
      ⟨"web-1", "t3.medium", "running", none, none, none, none⟩ rfl
  · exact claim_C9_fetch_failure_handling.2.2.1 ⟨"d-1", "Production", 1, 1, 25⟩
      ⟨[], [], [], [], [], [], []⟩ rfl

/-- Witness for C4: idempotence applied to a concrete table and batch
whose rows all carry the written provider. -/
theorem claim_C4_windowed_write_idempotent_witness :
    (∀ r ∈ [(⟨"AWS", "Production", "i-a", "EC2", 5, "INR", 8, 8⟩ :
          MonDash.BillingRecord),
        ⟨"AWS", "Production", "i-b", "EC2", 7, "INR", 9, 9⟩],
      r.provider = "AWS") ∧
    Ingestion.runBillingMain
        (Ingestion.runBillingMain
          [⟨"Azure", "rg", "vm", "VM", 3, "INR", 8, 8⟩,
           ⟨"AWS", "Production", "old", "EC2", 1, "INR", 9, 9⟩]
          [⟨"AWS", "Production", "i-a", "EC2", 5, "INR", 8, 8⟩,
           ⟨"AWS", "Production", "i-b", "EC2", 7, "INR", 9, 9⟩] "AWS" true true)
        [⟨"AWS", "Production", "i-a", "EC2", 5, "INR", 8, 8⟩,
         ⟨"AWS", "Production", "i-b", "EC2", 7, "INR", 9, 9⟩] "AWS" true true =
      Ingestion.runBillingMain
        [⟨"Azure", "rg", "vm", "VM", 3, "INR", 8, 8⟩,
         ⟨"AWS", "Production", "old", "EC2", 1, "INR", 9, 9⟩]
        [⟨"AWS", "Production", "i-a", "EC2", 5, "INR", 8, 8⟩,
         ⟨"AWS", "Production", "i-b", "EC2", 7, "INR", 9, 9⟩] "AWS" true true := by
  have hp : ∀ r ∈ [(⟨"AWS", "Production", "i-a", "EC2", 5, "INR", 8, 8⟩ :
        MonDash.BillingRecord),
      ⟨"AWS", "Production", "i-b", "EC2", 7, "INR", 9, 9⟩],
      r.provider = "AWS" := by
    intro r hr
    rcases List.mem_cons.mp hr with rfl | hr2
    · rfl
    · rcases List.mem_singleton.mp hr2 with rfl
      rfl
  exact ⟨hp, claim_C4_windowed_write_idempotent _ _ "AWS" hp⟩
